import Mathlib

/-!
Cyber-Extension: domain security scoring and e-mail subject classification

A shallow embedding of the decision logic of the browser extension:

* `checkDomainSecurity` (`src/background/background.js`), the blocklist test,
  the weighted score over five security signals and the three status tiers;
* `classifyEmail` (`src/content/gmail.js`), the keyword count over the
  lowercased subject;
* `getScoreColor` (`src/popup/popup.js`), the colour the popup gives a score.

JavaScript strings are embedded as Lean strings, JavaScript numbers that only
ever hold the sums of the fixed weights as natural numbers.  The values the
source draws from its environment (the four `Math.random()` comparisons and the
clock read by `new Date().toISOString()`) are inputs of the embedding.
-/

namespace CyberExtension

/-! ## `src/background/background.js` -/

/-- Weight of the HTTPS signal, `SECURITY_SCORES.HTTPS`. -/
def SECURITY_SCORES.HTTPS : Nat := 30
/-- Weight of the HSTS signal, `SECURITY_SCORES.HSTS`. -/
def SECURITY_SCORES.HSTS : Nat := 20
/-- Weight of the CSP signal, `SECURITY_SCORES.CSP`. -/
def SECURITY_SCORES.CSP : Nat := 20
/-- Weight of the X-Frame-Options signal, `SECURITY_SCORES.X_FRAME_OPTIONS`. -/
def SECURITY_SCORES.X_FRAME_OPTIONS : Nat := 15
/-- Weight of the X-XSS-Protection signal, `SECURITY_SCORES.X_XSS_PROTECTION`. -/
def SECURITY_SCORES.X_XSS_PROTECTION : Nat := 15

/-- The mock malicious domains database. -/
def MALICIOUS_DOMAINS : List String :=
  ["phishingsite.com", "malware-distribution.net", "scam-website.org", "fake-login-page.com"]

/-- The two fields of a parsed `URL` object that `checkDomainSecurity` reads. -/
structure URL where
  hostname : String
  protocol : String
  deriving DecidableEq, Repr

/-- Outcomes of the four `Math.random() > c` comparisons, in the order in which
the source evaluates them (HSTS, CSP, X-Frame-Options, X-XSS-Protection). -/
structure RandomDraws where
  hsts : Bool
  csp : Bool
  xFrameOptions : Bool
  xXssProtection : Bool
  deriving DecidableEq, Repr

/-- The `securityHeaders` object literal. -/
structure SecurityHeaders where
  hasHttps : Bool
  hasHsts : Bool
  hasCsp : Bool
  hasXFrameOptions : Bool
  hasXXssProtection : Bool
  deriving DecidableEq, Repr

/-- The object returned by `checkDomainSecurity`. -/
structure DomainVerdict where
  domain : String
  status : String
  score : Nat
  reasons : List String
  timestamp : String
  deriving DecidableEq, Repr

/-- The mock `securityHeaders` of `checkDomainSecurity`: HTTPS is read off the
protocol of the URL, the other four signals are the random draws. -/
def securityHeaders (url : URL) (draws : RandomDraws) : SecurityHeaders :=
  { hasHttps := url.protocol == "https:"
    hasHsts := draws.hsts
    hasCsp := draws.csp
    hasXFrameOptions := draws.xFrameOptions
    hasXXssProtection := draws.xXssProtection }

/-- The function `checkDomainSecurity(tabId, url)`.  `draws` are the outcomes of
the random comparisons and `now` is the value of `new Date().toISOString()`. -/
def checkDomainSecurity (_tabId : Nat) (url : URL) (draws : RandomDraws) (now : String) :
    DomainVerdict :=
  let domain := url.hostname
  let isMalicious := MALICIOUS_DOMAINS.contains domain
  if isMalicious then
    { domain := domain
      status := "unsafe"
      score := 0
      reasons := ["Known malicious domain"]
      timestamp := now }
  else
    let headers := securityHeaders url draws
    -- Calculate security score
    let score := 0
    let reasons : List String := []
    let (score, reasons) :=
      if headers.hasHttps then
        (score + SECURITY_SCORES.HTTPS, reasons ++ ["HTTPS enabled"])
      else
        (score, reasons ++ ["No HTTPS - insecure connection"])
    let (score, reasons) :=
      if headers.hasHsts then
        (score + SECURITY_SCORES.HSTS, reasons ++ ["HSTS header present"])
      else (score, reasons)
    let (score, reasons) :=
      if headers.hasCsp then
        (score + SECURITY_SCORES.CSP, reasons ++ ["Content Security Policy present"])
      else (score, reasons)
    let (score, reasons) :=
      if headers.hasXFrameOptions then
        (score + SECURITY_SCORES.X_FRAME_OPTIONS, reasons ++ ["X-Frame-Options header present"])
      else (score, reasons)
    let (score, reasons) :=
      if headers.hasXXssProtection then
        (score + SECURITY_SCORES.X_XSS_PROTECTION, reasons ++ ["X-XSS-Protection header present"])
      else (score, reasons)
    -- Determine status
    let status :=
      if score ≥ 80 then "safe"
      else if score ≥ 50 then "suspicious"
      else "unsafe"
    { domain := domain
      status := status
      score := score
      reasons := reasons
      timestamp := now }

/-! ## `src/popup/popup.js` -/

/-- The function `getScoreColor(score)`; `!score` holds of the number `0`. -/
def getScoreColor (score : Nat) : String :=
  if score == 0 then "#e2e8f0"
  else if score ≥ 80 then "#a7f3d0" -- green
  else if score ≥ 50 then "#fde68a" -- yellow
  else "#fecaca" -- red

/-! ## `src/content/gmail.js` -/

/-- Substring test on character sequences: `needle` is a prefix of `hay` or of
one of its suffixes. -/
def includesChars : List Char → List Char → Bool
  | [], needle => needle.isPrefixOf []
  | c :: cs, needle => needle.isPrefixOf (c :: cs) || includesChars cs needle

/-- The method `String.prototype.includes(searchString)`. -/
def includes (s searchString : String) : Bool :=
  includesChars s.data searchString.data

/-- The `spamKeywords` array of `classifyEmail`. -/
def spamKeywords : List String :=
  ["urgent", "action required", "account suspended", "password reset",
   "verify your account", "limited offer", "you won", "free", "congratulations",
   "click here", "bank", "paypal", "security alert"]

/-- The reduction `spamKeywords.reduce((score, keyword) => ..., 0)` over a keyword
list, for an already lowercased subject. -/
def spamScore (lowerSubject : String) (spamKeywords : List String) : Nat :=
  spamKeywords.foldl
    (fun score keyword => score + (if includes lowerSubject keyword then 1 else 0)) 0

/-- The body of `classifyEmail` with its keyword list as a parameter.  The
builtin `String.prototype.toLowerCase` is the parameter `toLowerCase`. -/
def classify (toLowerCase : String → String) (subject : String) (spamKeywords : List String) :
    Bool :=
  let lowerSubject := toLowerCase subject
  let spamScore := spamScore lowerSubject spamKeywords
  decide (spamScore ≥ 2)

/-- The function `classifyEmail(subject)`. -/
def classifyEmail (toLowerCase : String → String) (subject : String) : Bool :=
  classify toLowerCase subject spamKeywords

/-- Lowercasing of the letters `A`-`Z`, every other character being kept: what
`String.prototype.toLowerCase` does on a string of ASCII characters. -/
def toLowerCaseASCII (s : String) : String :=
  ⟨s.data.map Char.toLower⟩

/-! ## Specification-side vocabulary -/

/-- Position of a status in the order UNSAFE < SUSPICIOUS < SAFE; a string that
is not one of the three statuses has no position. -/
def statusRank (status : String) : Option Nat :=
  if status = "unsafe" then some 0
  else if status = "suspicious" then some 1
  else if status = "safe" then some 2
  else none

/-- The signal set `s'` is `s` with exactly one signal changed from absent to
present. -/
def raisesOneSignal (s s' : SecurityHeaders) : Prop :=
  (s.hasHttps = false ∧ s' = { s with hasHttps := true }) ∨
  (s.hasHsts = false ∧ s' = { s with hasHsts := true }) ∨
  (s.hasCsp = false ∧ s' = { s with hasCsp := true }) ∨
  (s.hasXFrameOptions = false ∧ s' = { s with hasXFrameOptions := true }) ∨
  (s.hasXXssProtection = false ∧ s' = { s with hasXXssProtection := true })

instance (s s' : SecurityHeaders) : Decidable (raisesOneSignal s s') := by
  unfold raisesOneSignal
  infer_instance

/-- The weighted sum of the present signals. -/
def weightedSum (s : SecurityHeaders) : Nat :=
  30 * s.hasHttps.toNat + 20 * s.hasHsts.toNat + 20 * s.hasCsp.toNat
    + 15 * s.hasXFrameOptions.toNat + 15 * s.hasXXssProtection.toNat

/-- The reasons in canonical order: one HTTPS entry, then one entry for each of
the other four signals that is present. -/
def canonicalReasons (s : SecurityHeaders) : List String :=
  [if s.hasHttps then "HTTPS enabled" else "No HTTPS - insecure connection"]
    ++ (if s.hasHsts then ["HSTS header present"] else [])
    ++ (if s.hasCsp then ["Content Security Policy present"] else [])
    ++ (if s.hasXFrameOptions then ["X-Frame-Options header present"] else [])
    ++ (if s.hasXXssProtection then ["X-XSS-Protection header present"] else [])

/-- The keywords of the lexicon that occur as a substring of a lowercased
subject, each listed once, in lexicon order. -/
def matchedKeywords (lowerSubject : String) : List String :=
  spamKeywords.filter (fun k => decide (k.data <:+: lowerSubject.data))

/-! ## Supporting lemmas -/

theorem includesChars_iff (hay needle : List Char) :
    includesChars hay needle = true ↔ needle <:+: hay := by
  induction hay with
  | nil => simp [includesChars]
  | cons c cs ih =>
    simp only [includesChars, Bool.or_eq_true, ih, List.infix_cons_iff,
      List.isPrefixOf_iff_prefix]

theorem includes_iff (s searchString : String) :
    includes s searchString = true ↔ searchString.data <:+: s.data :=
  includesChars_iff s.data searchString.data

theorem foldl_count_eq (p : String → Bool) (l : List String) (n : Nat) :
    l.foldl (fun score keyword => score + (if p keyword then 1 else 0)) n
      = n + l.countP p := by
  induction l generalizing n with
  | nil => simp
  | cons k ks ih =>
    rw [List.foldl_cons, ih, List.countP_cons]
    cases p k <;> simp
    omega

theorem spamScore_eq_countP (lowerSubject : String) (lexicon : List String) :
    spamScore lowerSubject lexicon = lexicon.countP (fun k => includes lowerSubject k) := by
  unfold spamScore
  rw [foldl_count_eq (fun k => includes lowerSubject k) lexicon 0, Nat.zero_add]

theorem spamScore_eq_matched (lowerSubject : String) :
    spamScore lowerSubject spamKeywords = (matchedKeywords lowerSubject).length := by
  rw [spamScore_eq_countP, List.countP_eq_length_filter, matchedKeywords]
  congr 1
  apply List.filter_congr
  intro k _
  rw [Bool.eq_iff_iff, includes_iff]
  simp


theorem checkDomainSecurity_of_mem (tabId : Nat) (url : URL) (draws : RandomDraws)
    (now : String) (h : url.hostname ∈ MALICIOUS_DOMAINS) :
    checkDomainSecurity tabId url draws now
      = { domain := url.hostname, status := "unsafe", score := 0,
          reasons := ["Known malicious domain"], timestamp := now } := by
  have hc : MALICIOUS_DOMAINS.contains url.hostname = true := by
    simpa using h
  unfold checkDomainSecurity
  simp only [hc]
  rfl

theorem checkDomainSecurity_of_not_mem (tabId : Nat) (url : URL) (draws : RandomDraws)
    (now : String) (h : url.hostname ∉ MALICIOUS_DOMAINS) :
    checkDomainSecurity tabId url draws now
      = { domain := url.hostname
          status :=
            if weightedSum (securityHeaders url draws) ≥ 80 then "safe"
            else if weightedSum (securityHeaders url draws) ≥ 50 then "suspicious"
            else "unsafe"
          score := weightedSum (securityHeaders url draws)
          reasons := canonicalReasons (securityHeaders url draws)
          timestamp := now } := by
  have hc : MALICIOUS_DOMAINS.contains url.hostname = false := by
    simpa using h
  unfold checkDomainSecurity
  simp only [hc]
  generalize securityHeaders url draws = s
  rcases s with ⟨a, b, c, d, e⟩
  cases a <;> cases b <;> cases c <;> cases d <;> cases e <;> rfl

/-! ## Domain security scoring -/

/-- C1: for a domain on the blocklist, whatever the protocol and the four random
draws (so whatever the five signals), the verdict has score 0, status `unsafe`
and the single reason `Known malicious domain`; the verdict is the same for every
other URL with that hostname and every other draw. -/
theorem checkDomainSecurity_blocklisted (tabId : Nat) (url : URL) (draws : RandomDraws)
    (now : String) (h : url.hostname ∈ MALICIOUS_DOMAINS) :
    (checkDomainSecurity tabId url draws now).score = 0
      ∧ (checkDomainSecurity tabId url draws now).status = "unsafe"
      ∧ (checkDomainSecurity tabId url draws now).reasons = ["Known malicious domain"]
      ∧ ∀ (tabId' : Nat) (url' : URL) (draws' : RandomDraws),
          url'.hostname = url.hostname →
            checkDomainSecurity tabId' url' draws' now
              = checkDomainSecurity tabId url draws now := by
  refine ⟨?_, ?_, ?_, ?_⟩
  · rw [checkDomainSecurity_of_mem tabId url draws now h]
  · rw [checkDomainSecurity_of_mem tabId url draws now h]
  · rw [checkDomainSecurity_of_mem tabId url draws now h]
  · intro tabId' url' draws' hh
    rw [checkDomainSecurity_of_mem tabId url draws now h,
      checkDomainSecurity_of_mem tabId' url' draws' now (hh ▸ h), hh]

/-- Witness of C1: `phishingsite.com` over HTTPS with all four draws positive, so
with all five signals present. -/
theorem checkDomainSecurity_blocklisted_witness :
    securityHeaders ⟨"phishingsite.com", "https:"⟩ ⟨true, true, true, true⟩
        = ⟨true, true, true, true, true⟩
      ∧ (checkDomainSecurity 7 ⟨"phishingsite.com", "https:"⟩ ⟨true, true, true, true⟩
          "2024-01-01T00:00:00.000Z").score = 0
      ∧ (checkDomainSecurity 7 ⟨"phishingsite.com", "https:"⟩ ⟨true, true, true, true⟩
          "2024-01-01T00:00:00.000Z").status = "unsafe"
      ∧ (checkDomainSecurity 7 ⟨"phishingsite.com", "https:"⟩ ⟨true, true, true, true⟩
          "2024-01-01T00:00:00.000Z").reasons = ["Known malicious domain"] :=
  have h := checkDomainSecurity_blocklisted 7 ⟨"phishingsite.com", "https:"⟩
    ⟨true, true, true, true⟩ "2024-01-01T00:00:00.000Z" (by decide)
  ⟨by decide, h.1, h.2.1, h.2.2.1⟩

/-- C2: for a domain that is not on the blocklist the score is
`30*[hasHttps] + 20*[hasHsts] + 20*[hasCsp] + 15*[hasXFrameOptions] +
15*[hasXXssProtection]`; the five contributions summed in any order give the
score; the score lies between 0 and 100; with all five signals present it is 100
and the status is `safe`. -/
theorem checkDomainSecurity_score (tabId : Nat) (url : URL) (draws : RandomDraws)
    (now : String) (h : url.hostname ∉ MALICIOUS_DOMAINS) :
    (checkDomainSecurity tabId url draws now).score
        = 30 * (securityHeaders url draws).hasHttps.toNat
          + 20 * (securityHeaders url draws).hasHsts.toNat
          + 20 * (securityHeaders url draws).hasCsp.toNat
          + 15 * (securityHeaders url draws).hasXFrameOptions.toNat
          + 15 * (securityHeaders url draws).hasXXssProtection.toNat
      ∧ (∀ l : List Nat,
          l.Perm [30 * (securityHeaders url draws).hasHttps.toNat,
                  20 * (securityHeaders url draws).hasHsts.toNat,
                  20 * (securityHeaders url draws).hasCsp.toNat,
                  15 * (securityHeaders url draws).hasXFrameOptions.toNat,
                  15 * (securityHeaders url draws).hasXXssProtection.toNat] →
            l.sum = (checkDomainSecurity tabId url draws now).score)
      ∧ 0 ≤ (checkDomainSecurity tabId url draws now).score
      ∧ (checkDomainSecurity tabId url draws now).score ≤ 100
      ∧ (securityHeaders url draws = ⟨true, true, true, true, true⟩ →
          (checkDomainSecurity tabId url draws now).score = 100
            ∧ (checkDomainSecurity tabId url draws now).status = "safe") := by
  rw [checkDomainSecurity_of_not_mem tabId url draws now h]
  refine ⟨rfl, ?_, Nat.zero_le _, ?_, ?_⟩
  · intro l hl
    rw [hl.sum_eq]
    simp [weightedSum, Nat.add_assoc]
  · show weightedSum (securityHeaders url draws) ≤ 100
    generalize securityHeaders url draws = s
    rcases s with ⟨a, b, c, d, e⟩
    cases a <;> cases b <;> cases c <;> cases d <;> cases e <;> decide
  · intro hs
    simp only [hs]
    decide

/-- Witness of C2: `example.com` over HTTPS with all four draws positive scores
100 and is `safe`. -/
theorem checkDomainSecurity_score_witness :
    "example.com" ∉ MALICIOUS_DOMAINS
      ∧ (checkDomainSecurity 7 ⟨"example.com", "https:"⟩ ⟨true, true, true, true⟩
          "2024-01-01T00:00:00.000Z").score = 100
      ∧ (checkDomainSecurity 7 ⟨"example.com", "https:"⟩ ⟨true, true, true, true⟩
          "2024-01-01T00:00:00.000Z").status = "safe" :=
  have h := checkDomainSecurity_score 7 ⟨"example.com", "https:"⟩
    ⟨true, true, true, true⟩ "2024-01-01T00:00:00.000Z" (by decide)
  ⟨by decide, h.2.2.2.2 (by decide)⟩

/-- C3: for a domain that is not on the blocklist the status is a function of the
score: `safe` iff the score is at least 80, `suspicious` iff it is at least 50
and below 80, `unsafe` iff it is below 50. -/
theorem checkDomainSecurity_status (tabId : Nat) (url : URL) (draws : RandomDraws)
    (now : String) (h : url.hostname ∉ MALICIOUS_DOMAINS) :
    ((checkDomainSecurity tabId url draws now).status = "safe"
        ↔ (checkDomainSecurity tabId url draws now).score ≥ 80)
      ∧ ((checkDomainSecurity tabId url draws now).status = "suspicious"
        ↔ 50 ≤ (checkDomainSecurity tabId url draws now).score
            ∧ (checkDomainSecurity tabId url draws now).score < 80)
      ∧ ((checkDomainSecurity tabId url draws now).status = "unsafe"
        ↔ (checkDomainSecurity tabId url draws now).score < 50) := by
  rw [checkDomainSecurity_of_not_mem tabId url draws now h]
  simp only
  generalize weightedSum (securityHeaders url draws) = n
  by_cases h80 : n ≥ 80
  · have h1 : ¬ n < 80 := by omega
    have h2 : ¬ n < 50 := by omega
    simp [h80, h1, h2]
  · by_cases h50 : n ≥ 50
    · have h1 : n < 80 := by omega
      have h2 : ¬ n < 50 := by omega
      simp [h80, h50, h1, h2]
    · have h1 : n < 50 := by omega
      simp [h80, h50, h1]

/-- Witness of C3: `example.com` over HTTPS with HSTS and CSP drawn scores 70,
which is `suspicious` and neither `safe` nor `unsafe`. -/
theorem checkDomainSecurity_status_witness :
    (checkDomainSecurity 7 ⟨"example.com", "https:"⟩ ⟨true, true, false, false⟩
        "2024-01-01T00:00:00.000Z").score = 70
      ∧ (checkDomainSecurity 7 ⟨"example.com", "https:"⟩ ⟨true, true, false, false⟩
        "2024-01-01T00:00:00.000Z").status = "suspicious" :=
  have h := checkDomainSecurity_status 7 ⟨"example.com", "https:"⟩
    ⟨true, true, false, false⟩ "2024-01-01T00:00:00.000Z" (by decide)
  ⟨by decide, h.2.1.mpr (by decide)⟩


/-- C5: for two evaluations of domains that are not on the blocklist, the second
on a signal set that is the first with exactly one signal changed from absent to
present, the second score is strictly greater and the second status is at least
the first in the order UNSAFE < SUSPICIOUS < SAFE. -/
theorem checkDomainSecurity_monotone (tabId tabId' : Nat) (url url' : URL)
    (draws draws' : RandomDraws) (now now' : String)
    (h : url.hostname ∉ MALICIOUS_DOMAINS) (h' : url'.hostname ∉ MALICIOUS_DOMAINS)
    (hs : raisesOneSignal (securityHeaders url draws) (securityHeaders url' draws')) :
    (checkDomainSecurity tabId url draws now).score
        < (checkDomainSecurity tabId' url' draws' now').score
      ∧ ∃ r r' : Nat,
          statusRank (checkDomainSecurity tabId url draws now).status = some r
            ∧ statusRank (checkDomainSecurity tabId' url' draws' now').status = some r'
            ∧ r ≤ r' := by
  rw [checkDomainSecurity_of_not_mem tabId url draws now h,
    checkDomainSecurity_of_not_mem tabId' url' draws' now' h']
  simp only
  generalize securityHeaders url draws = s at hs ⊢
  generalize securityHeaders url' draws' = s' at hs ⊢
  rcases s with ⟨a, b, c, d, e⟩
  rcases hs with ⟨h0, rfl⟩ | ⟨h0, rfl⟩ | ⟨h0, rfl⟩ | ⟨h0, rfl⟩ | ⟨h0, rfl⟩ <;>
    simp only at h0 <;> subst h0
  · cases b <;> cases c <;> cases d <;> cases e <;>
      exact ⟨by decide, _, _, rfl, rfl, by decide⟩
  · cases a <;> cases c <;> cases d <;> cases e <;>
      exact ⟨by decide, _, _, rfl, rfl, by decide⟩
  · cases a <;> cases b <;> cases d <;> cases e <;>
      exact ⟨by decide, _, _, rfl, rfl, by decide⟩
  · cases a <;> cases b <;> cases c <;> cases e <;>
      exact ⟨by decide, _, _, rfl, rfl, by decide⟩
  · cases a <;> cases b <;> cases c <;> cases d <;>
      exact ⟨by decide, _, _, rfl, rfl, by decide⟩

/-- Witness of C5: on `example.com`, HTTPS with HSTS and X-Frame-Options scores 65
(`suspicious`); drawing CSP as well scores 85 (`safe`). -/
theorem checkDomainSecurity_monotone_witness :
    (checkDomainSecurity 7 ⟨"example.com", "https:"⟩ ⟨true, false, true, false⟩
        "2024-01-01T00:00:00.000Z").score
        < (checkDomainSecurity 8 ⟨"example.com", "https:"⟩ ⟨true, true, true, false⟩
            "2024-01-02T00:00:00.000Z").score
      ∧ ∃ r r' : Nat,
          statusRank (checkDomainSecurity 7 ⟨"example.com", "https:"⟩
              ⟨true, false, true, false⟩ "2024-01-01T00:00:00.000Z").status = some r
            ∧ statusRank (checkDomainSecurity 8 ⟨"example.com", "https:"⟩
              ⟨true, true, true, false⟩ "2024-01-02T00:00:00.000Z").status = some r'
            ∧ r ≤ r' :=
  checkDomainSecurity_monotone 7 8 ⟨"example.com", "https:"⟩ ⟨"example.com", "https:"⟩
    ⟨true, false, true, false⟩ ⟨true, true, true, false⟩
    "2024-01-01T00:00:00.000Z" "2024-01-02T00:00:00.000Z"
    (by decide) (by decide) (by decide)

/-- C7, as stated, fails: for `example.com` over plain HTTP with no signal drawn
(not on the blocklist, all five signals absent) the reasons list does not contain
the string `No HTTPS — insecure connection` written with a dash U+2014. -/
theorem checkDomainSecurity_no_signals_em_dash_absent :
    "example.com" ∉ MALICIOUS_DOMAINS
      ∧ securityHeaders ⟨"example.com", "http:"⟩ ⟨false, false, false, false⟩
          = ⟨false, false, false, false, false⟩
      ∧ "No HTTPS — insecure connection"
          ∉ (checkDomainSecurity 7 ⟨"example.com", "http:"⟩ ⟨false, false, false, false⟩
              "2024-01-01T00:00:00.000Z").reasons := by
  decide

/-- C7, amended: for a domain that is not on the blocklist, evaluated with all
five signals absent, the verdict has score 0, status `unsafe`, and its reasons
list is exactly the one entry `No HTTPS - insecure connection`, written with the
ASCII hyphen-minus. -/
theorem checkDomainSecurity_no_signals (tabId : Nat) (url : URL) (draws : RandomDraws)
    (now : String) (h : url.hostname ∉ MALICIOUS_DOMAINS)
    (hs : securityHeaders url draws = ⟨false, false, false, false, false⟩) :
    (checkDomainSecurity tabId url draws now).score = 0
      ∧ (checkDomainSecurity tabId url draws now).status = "unsafe"
      ∧ (checkDomainSecurity tabId url draws now).reasons
          = ["No HTTPS - insecure connection"] := by
  rw [checkDomainSecurity_of_not_mem tabId url draws now h, hs]
  simp only
  decide

/-- Witness of C7 amended: `example.com` over plain HTTP with no signal drawn. -/
theorem checkDomainSecurity_no_signals_witness :
    (checkDomainSecurity 7 ⟨"example.com", "http:"⟩ ⟨false, false, false, false⟩
        "2024-01-01T00:00:00.000Z").score = 0
      ∧ (checkDomainSecurity 7 ⟨"example.com", "http:"⟩ ⟨false, false, false, false⟩
        "2024-01-01T00:00:00.000Z").status = "unsafe"
      ∧ (checkDomainSecurity 7 ⟨"example.com", "http:"⟩ ⟨false, false, false, false⟩
        "2024-01-01T00:00:00.000Z").reasons = ["No HTTPS - insecure connection"] :=
  checkDomainSecurity_no_signals 7 ⟨"example.com", "http:"⟩ ⟨false, false, false, false⟩
    "2024-01-01T00:00:00.000Z" (by decide) (by decide)

/-- C8: for a domain that is not on the blocklist the reasons list is, in this
order, one HTTPS entry (`HTTPS enabled` when HTTPS is present, the different
entry `No HTTPS - insecure connection` when it is absent) followed by one entry
for each of HSTS, CSP, X-Frame-Options and X-XSS-Protection that is present and
none for those that are absent; its length is 1 plus the number of those four
signals that are present, and it is not empty. -/
theorem checkDomainSecurity_reasons (tabId : Nat) (url : URL) (draws : RandomDraws)
    (now : String) (h : url.hostname ∉ MALICIOUS_DOMAINS) :
    (checkDomainSecurity tabId url draws now).reasons
        = [if (securityHeaders url draws).hasHttps then "HTTPS enabled"
            else "No HTTPS - insecure connection"]
          ++ (if (securityHeaders url draws).hasHsts then ["HSTS header present"] else [])
          ++ (if (securityHeaders url draws).hasCsp
                then ["Content Security Policy present"] else [])
          ++ (if (securityHeaders url draws).hasXFrameOptions
                then ["X-Frame-Options header present"] else [])
          ++ (if (securityHeaders url draws).hasXXssProtection
                then ["X-XSS-Protection header present"] else [])
      ∧ "HTTPS enabled" ≠ "No HTTPS - insecure connection"
      ∧ (checkDomainSecurity tabId url draws now).reasons.length
          = 1 + ((securityHeaders url draws).hasHsts.toNat
                + (securityHeaders url draws).hasCsp.toNat
                + (securityHeaders url draws).hasXFrameOptions.toNat
                + (securityHeaders url draws).hasXXssProtection.toNat)
      ∧ (checkDomainSecurity tabId url draws now).reasons ≠ [] := by
  rw [checkDomainSecurity_of_not_mem tabId url draws now h]
  simp only
  refine ⟨rfl, by decide, ?_, ?_⟩
  · generalize securityHeaders url draws = s
    rcases s with ⟨a, b, c, d, e⟩
    cases a <;> cases b <;> cases c <;> cases d <;> cases e <;> rfl
  · simp [canonicalReasons]

/-- Witness of C8: `example.com` over plain HTTP with CSP and X-XSS-Protection
drawn has three reasons, the negative HTTPS entry first. -/
theorem checkDomainSecurity_reasons_witness :
    (checkDomainSecurity 7 ⟨"example.com", "http:"⟩ ⟨false, true, false, true⟩
        "2024-01-01T00:00:00.000Z").reasons
      = ["No HTTPS - insecure connection", "Content Security Policy present",
         "X-XSS-Protection header present"] :=
  (checkDomainSecurity_reasons 7 ⟨"example.com", "http:"⟩ ⟨false, true, false, true⟩
    "2024-01-01T00:00:00.000Z" (by decide)).1.trans (by decide)

/-- C9, as stated, fails: the empty hostname (that of a `file:` URL) is not
rejected.  The blocklist test answers `false` for it and `checkDomainSecurity`
returns an ordinary verdict whose domain field is empty. -/
theorem checkDomainSecurity_empty_domain_returns :
    MALICIOUS_DOMAINS.contains "" = false
      ∧ checkDomainSecurity 7 ⟨"", "file:"⟩ ⟨true, false, true, false⟩
          "2024-01-01T00:00:00.000Z"
        = { domain := "", status := "unsafe", score := 35,
            reasons := ["No HTTPS - insecure connection", "HSTS header present",
                        "X-Frame-Options header present"],
            timestamp := "2024-01-01T00:00:00.000Z" } := by
  decide

/-- C9, amended: `checkDomainSecurity` does not validate the domain.  For every
input the domain field of the verdict is the hostname it was given, and for the
empty hostname, which is not on the blocklist, the verdict is the ordinary one
computed from the signals, with an empty domain field. -/
theorem checkDomainSecurity_domain (tabId : Nat) (url : URL) (draws : RandomDraws)
    (now : String) :
    (checkDomainSecurity tabId url draws now).domain = url.hostname
      ∧ checkDomainSecurity tabId ⟨"", url.protocol⟩ draws now
        = { domain := ""
            status :=
              if weightedSum (securityHeaders ⟨"", url.protocol⟩ draws) ≥ 80 then "safe"
              else if weightedSum (securityHeaders ⟨"", url.protocol⟩ draws) ≥ 50
                then "suspicious"
              else "unsafe"
            score := weightedSum (securityHeaders ⟨"", url.protocol⟩ draws)
            reasons := canonicalReasons (securityHeaders ⟨"", url.protocol⟩ draws)
            timestamp := now } := by
  constructor
  · by_cases h : url.hostname ∈ MALICIOUS_DOMAINS
    · rw [checkDomainSecurity_of_mem tabId url draws now h]
    · rw [checkDomainSecurity_of_not_mem tabId url draws now h]
  · have h0 : "" ∉ MALICIOUS_DOMAINS := by decide
    exact checkDomainSecurity_of_not_mem tabId ⟨"", url.protocol⟩ draws now h0

/-- C10: for every verdict of `checkDomainSecurity`, when the score is positive
the colour `getScoreColor` gives it is green iff the status is `safe`, yellow iff
it is `suspicious` and red iff it is `unsafe`; when the score is 0 the colour is
the grey `#e2e8f0` and not red, while the status is `unsafe`; the score is 0
exactly for the domains on the blocklist and for the other domains with no signal
present. -/
theorem getScoreColor_checkDomainSecurity (tabId : Nat) (url : URL) (draws : RandomDraws)
    (now : String) :
    ((checkDomainSecurity tabId url draws now).score > 0 →
        (getScoreColor (checkDomainSecurity tabId url draws now).score = "#a7f3d0"
            ↔ (checkDomainSecurity tabId url draws now).status = "safe")
          ∧ (getScoreColor (checkDomainSecurity tabId url draws now).score = "#fde68a"
            ↔ (checkDomainSecurity tabId url draws now).status = "suspicious")
          ∧ (getScoreColor (checkDomainSecurity tabId url draws now).score = "#fecaca"
            ↔ (checkDomainSecurity tabId url draws now).status = "unsafe"))
      ∧ ((checkDomainSecurity tabId url draws now).score = 0 →
          getScoreColor (checkDomainSecurity tabId url draws now).score = "#e2e8f0"
            ∧ getScoreColor (checkDomainSecurity tabId url draws now).score ≠ "#fecaca"
            ∧ (checkDomainSecurity tabId url draws now).status = "unsafe")
      ∧ ((checkDomainSecurity tabId url draws now).score = 0
          ↔ url.hostname ∈ MALICIOUS_DOMAINS
            ∨ securityHeaders url draws = ⟨false, false, false, false, false⟩) := by
  by_cases h : url.hostname ∈ MALICIOUS_DOMAINS
  · rw [checkDomainSecurity_of_mem tabId url draws now h]
    simp [h, getScoreColor]
  · rw [checkDomainSecurity_of_not_mem tabId url draws now h]
    simp only
    generalize securityHeaders url draws = s
    rcases s with ⟨a, b, c, d, e⟩
    cases a <;> cases b <;> cases c <;> cases d <;> cases e <;>
      simp [h, getScoreColor, weightedSum]

/-- Witness of C10: `example.com` over HTTPS with HSTS and CSP drawn scores 70,
has status `suspicious` and is shown yellow; `phishingsite.com` scores 0, has
status `unsafe` and is shown grey. -/
theorem getScoreColor_checkDomainSecurity_witness :
    (checkDomainSecurity 7 ⟨"example.com", "https:"⟩ ⟨true, true, false, false⟩
        "2024-01-01T00:00:00.000Z").status = "suspicious"
      ∧ getScoreColor (checkDomainSecurity 7 ⟨"phishingsite.com", "https:"⟩
          ⟨true, true, true, true⟩ "2024-01-01T00:00:00.000Z").score = "#e2e8f0" :=
  ⟨((getScoreColor_checkDomainSecurity 7 ⟨"example.com", "https:"⟩
      ⟨true, true, false, false⟩ "2024-01-01T00:00:00.000Z").1 (by decide)).2.1.mp (by decide),
   ((getScoreColor_checkDomainSecurity 7 ⟨"phishingsite.com", "https:"⟩
      ⟨true, true, true, true⟩ "2024-01-01T00:00:00.000Z").2.1 (by decide)).1⟩

/-! ## E-mail subject classification -/

/-- C4: `classifyEmail` answers `true` iff at least 2 of the keywords of the
lexicon occur as a substring of the lowercased subject, the lexicon being 13
pairwise different keywords.  `URGENT: Verify your account now` matches exactly
`urgent` and `verify your account` and is spam; `Team lunch Friday` matches no
keyword and is not spam; a match needs no word boundary (`congratulationsXYZ`
matches `congratulations`) and two matches may overlap
(`congratulationsecurity alert` matches two keywords and is spam). -/
theorem classifyEmail_iff (toLowerCase : String → String) :
    (∀ subject : String,
        classifyEmail toLowerCase subject = true
          ↔ 2 ≤ (matchedKeywords (toLowerCase subject)).length)
      ∧ spamKeywords.length = 13
      ∧ spamKeywords.Nodup
      ∧ (toLowerCase "URGENT: Verify your account now" = "urgent: verify your account now" →
          matchedKeywords (toLowerCase "URGENT: Verify your account now")
              = ["urgent", "verify your account"]
            ∧ classifyEmail toLowerCase "URGENT: Verify your account now" = true)
      ∧ (toLowerCase "Team lunch Friday" = "team lunch friday" →
          matchedKeywords (toLowerCase "Team lunch Friday") = []
            ∧ classifyEmail toLowerCase "Team lunch Friday" = false)
      ∧ (toLowerCase "congratulationsXYZ" = "congratulationsxyz" →
          matchedKeywords (toLowerCase "congratulationsXYZ") = ["congratulations"]
            ∧ classifyEmail toLowerCase "congratulationsXYZ" = false)
      ∧ (toLowerCase "congratulationsecurity alert" = "congratulationsecurity alert" →
          matchedKeywords (toLowerCase "congratulationsecurity alert")
              = ["congratulations", "security alert"]
            ∧ classifyEmail toLowerCase "congratulationsecurity alert" = true) := by
  have key : ∀ subject : String,
      classifyEmail toLowerCase subject = true
        ↔ 2 ≤ (matchedKeywords (toLowerCase subject)).length := by
    intro subject
    simp only [classifyEmail, classify, decide_eq_true_eq, ge_iff_le, spamScore_eq_matched]
  have hf : ∀ subject : String, ¬ 2 ≤ (matchedKeywords (toLowerCase subject)).length →
      classifyEmail toLowerCase subject = false := by
    intro subject hn
    rw [← Bool.not_eq_true, key]
    exact hn
  refine ⟨key, by decide, by decide, ?_, ?_, ?_, ?_⟩
  · intro hl
    have hm : matchedKeywords (toLowerCase "URGENT: Verify your account now")
        = ["urgent", "verify your account"] := by
      rw [hl]; decide
    exact ⟨hm, (key _).mpr (by rw [hm]; decide)⟩
  · intro hl
    have hm : matchedKeywords (toLowerCase "Team lunch Friday") = [] := by
      rw [hl]; decide
    exact ⟨hm, hf _ (by rw [hm]; decide)⟩
  · intro hl
    have hm : matchedKeywords (toLowerCase "congratulationsXYZ") = ["congratulations"] := by
      rw [hl]; decide
    exact ⟨hm, hf _ (by rw [hm]; decide)⟩
  · intro hl
    have hm : matchedKeywords (toLowerCase "congratulationsecurity alert")
        = ["congratulations", "security alert"] := by
      rw [hl]; decide
    exact ⟨hm, (key _).mpr (by rw [hm]; decide)⟩

/-- Witness of C4: with the lowercasing of ASCII letters, the subject
`URGENT: Verify your account now` is spam and `Team lunch Friday` is not. -/
theorem classifyEmail_iff_witness :
    classifyEmail toLowerCaseASCII "URGENT: Verify your account now" = true
      ∧ classifyEmail toLowerCaseASCII "Team lunch Friday" = false :=
  ⟨((classifyEmail_iff toLowerCaseASCII).2.2.2.1 (by decide)).2,
   ((classifyEmail_iff toLowerCaseASCII).2.2.2.2.1 (by decide)).2⟩

/-- C6: when a keyword is appended to the lexicon the match count does not
decrease, and a subject classified as spam stays classified as spam; this holds
for every appended keyword, in particular for one that occurs as a substring of
the lowercased subject, for which the match count grows by exactly one. -/
theorem classify_append_keyword (toLowerCase : String → String) (subject : String)
    (lexicon : List String) (k : String) :
    spamScore (toLowerCase subject) lexicon
        ≤ spamScore (toLowerCase subject) (lexicon ++ [k])
      ∧ (classify toLowerCase subject lexicon = true →
          classify toLowerCase subject (lexicon ++ [k]) = true)
      ∧ (k.data <:+: (toLowerCase subject).data →
          spamScore (toLowerCase subject) (lexicon ++ [k])
            = spamScore (toLowerCase subject) lexicon + 1) := by
  have h1 : spamScore (toLowerCase subject) lexicon
      ≤ spamScore (toLowerCase subject) (lexicon ++ [k]) := by
    simp [spamScore_eq_countP, List.countP_append]
  refine ⟨h1, ?_, ?_⟩
  · simp only [classify, decide_eq_true_eq, ge_iff_le]
    omega
  · intro hk
    have hi : includes (toLowerCase subject) k = true := (includes_iff _ _).mpr hk
    simp [spamScore_eq_countP, List.countP_append, hi]

/-- Witness of C6: the subject `URGENT: Verify your account now` is spam for the
lexicon `urgent`, `now` and stays spam when `verify your account` is appended. -/
theorem classify_append_keyword_witness :
    classify toLowerCaseASCII "URGENT: Verify your account now" ["urgent", "now"] = true
      ∧ classify toLowerCaseASCII "URGENT: Verify your account now"
          (["urgent", "now"] ++ ["verify your account"]) = true
      ∧ spamScore (toLowerCaseASCII "URGENT: Verify your account now")
          (["urgent", "now"] ++ ["verify your account"])
        = spamScore (toLowerCaseASCII "URGENT: Verify your account now") ["urgent", "now"] + 1 :=
  ⟨by decide,
   (classify_append_keyword toLowerCaseASCII "URGENT: Verify your account now"
      ["urgent", "now"] "verify your account").2.1 (by decide),
   (classify_append_keyword toLowerCaseASCII "URGENT: Verify your account now"
      ["urgent", "now"] "verify your account").2.2 ((includes_iff _ _).mp (by decide))⟩

end CyberExtension
